import Mathlib

/-!
Verification of the word-embedding visualization app (`src/app.js`).

The repository holds four near-duplicate variants of the same browser app.
We embed the shared core as pure Lean definitions:

* the lazy resource loaders (`ensureTokenizer`, `ensureCoordsLoaded`,
  `ensureSimModel`, from the variants at lines 311-361, 560-589 and 745-784
  of the concatenated source) as functions on an explicit `AppState`,
  parameterized by the data the `fetch` calls would return and by booleans
  saying whether those external calls succeed;
* the plot-eligibility filters: `selectPlottable` (variant 1, lines 177-186,
  which checks both the coordinate map and the vocabulary index) and
  `selectPlottableLazy` (the lazy variants, lines 426-433, 654-661, 878-885,
  which check the coordinate map only);
* the `run` entry point (variant 4, lines 865-900) and the `showSimilar`
  entry point (variant 2/4, lines 388-408 and 839-863);
* the dedup step `[...new Set(words)]` as `dedupFirst` (JS `Set` keeps
  insertion order, i.e. first occurrences);
* the similar-word ranking pipeline (filter / map / stable sort descending /
  `slice(0, 10)`), with the floating-point cosine score abstracted as a
  rational-valued `score` function — JS `Array.prototype.sort` is stable,
  which `List.mergeSort` models;
* `cosineSimByIndex` (lines 39-52 etc.) over real numbers, with the JS
  float arithmetic modelled by exact real arithmetic.

DOM rendering (`renderPlot`, list items, alerts) and CSV/JSON text parsing
are outside the modelled core: fetched assets enter the model already parsed
(a coordinate row list, a vocabulary string list, a numeric buffer).
The boolean returned alongside the state by each operation records whether
the operation completed without an uncaught exception.
-/

/-- Embedding dimension, `SIM_D = 50` in `app.js`. -/
def SIM_D : Nat := 50

/-- Truncation bound of the similarity list, `slice(0, 10)` in `showSimilar`. -/
def SIM_K : Nat := 10

/-- A 2-D coordinate from `coords.csv`, `{x, y}` in the source. -/
abbrev Coord := ℚ × ℚ

/-- Status message set while tokenizing (`分かち書き中…`). -/
def statusWakachi : String := "分かち書き中…"

/-- Status message for fewer than 2 plottable words (run aborts). -/
def statusTooFew : String := "プロット可能な単語が少なすぎます（2語以上必要）。"

/-- Status message while the coordinate table loads. -/
def statusCoordsLoading : String := "座標(coords.csv)を読み込み中…（初回のみ）"

/-- Status message once the coordinate table is loaded. -/
def statusCoordsReady : String := "準備完了（座標ロード済み）"

/-- Status message while the similarity model loads. -/
def statusSimLoading : String := "類似語モデルを読み込み中…（初回のみ）"

/-- Status message once the similarity model is loaded. -/
def statusSimReady : String := "準備完了（類似語モデルロード済み）"

/-- Status message while the tokenizer is being built. -/
def statusTokLoading : String := "形態素解析準備中…（初回のみ）"

/-- Status message after a successful run (`完了：N語をプロット…`). -/
def statusDone (n : Nat) : String :=
  "完了：" ++ toString n ++ "語をプロット（類似語はクリックでロード）"

/-- The module-level mutable state of the app: the lazily-loaded resources
with their readiness flags, the session plot state, and the two DOM sinks we
track (`selectedWord` label, `simList` contents, `status` line) plus the
run-button disabled flag. -/
structure AppState where
  tokenizerLoaded : Bool
  coordsLoaded : Bool
  coordMap : String → Option Coord
  simLoaded : Bool
  wordToIndex : String → Option Nat
  vecData : List ℚ
  currentWords : List String
  currentXY : List Coord
  selectedWord : String
  simList : List (String × ℚ)
  status : String
  runDisabled : Bool

/-- The state at page start: nothing loaded, empty maps and session lists. -/
def initState : AppState where
  tokenizerLoaded := false
  coordsLoaded := false
  coordMap := fun _ => none
  simLoaded := false
  wordToIndex := fun _ => none
  vecData := []
  currentWords := []
  currentXY := []
  selectedWord := ""
  simList := []
  status := ""
  runDisabled := false

/-- `new Map(vocab.map((w, i) => [w, i]))`: insert each (word, position) pair
in order; a later duplicate key overrides an earlier one, as `Map.set` does. -/
def buildWordToIndex (vocab : List String) : String → Option Nat :=
  vocab.enum.foldl (fun m p => fun x => if x = p.2 then some p.1 else m x)
    (fun _ => none)

/-- `coordMap.set(word, {x, y})` applied to each parsed CSV row in order
(later rows override earlier ones for a duplicated word). -/
def insertCoordRows (m : String → Option Coord) : List (String × Coord) → (String → Option Coord)
  | [] => m
  | (w, c) :: rest => insertCoordRows (fun x => if x = w then some c else m x) rest

/-- `ensureTokenizer` (variants 2/3): no-op when the tokenizer is present,
otherwise build it; on a build error or timeout the state is unchanged.
`buildOk` says whether the external build succeeds; the returned booleans are
(work was attempted, completed without throwing). -/
def ensureTokenizer (st : AppState) (buildOk : Bool) : AppState × Bool × Bool :=
  if st.tokenizerLoaded then (st, false, true)
  else
    let st1 := { st with status := statusTokLoading }
    if buildOk then ({ st1 with tokenizerLoaded := true }, true, true)
    else (st1, true, false)

/-- `ensureCoordsLoaded` / `ensureCoords`: no-op when `coordsLoaded`;
otherwise fetch the CSV (`fetchOk` says whether the fetch succeeds), merge
the parsed rows into `coordMap`, and set the flag. -/
def ensureCoordsLoaded (st : AppState) (fetchOk : Bool) (rows : List (String × Coord)) :
    AppState × Bool × Bool :=
  if st.coordsLoaded then (st, false, true)
  else
    let st1 := { st with status := statusCoordsLoading }
    if fetchOk then
      ({ st1 with coordMap := insertCoordRows st1.coordMap rows,
                  coordsLoaded := true, status := statusCoordsReady }, true, true)
    else (st1, true, false)

/-- `ensureSimModel` / `ensureSimModelLoaded` (and the length validation of
`loadVocabAndVec`): no-op when `simLoaded`; otherwise fetch the vocabulary
(`vocabOk`), rebuild `wordToIndex`, fetch the vector buffer (`bufOk`), store
it in `vecData`, and only then validate `vecData.length == vocab.length * SIM_D`;
a mismatch throws (`vec bin size mismatch`), leaving `simLoaded` false.
Note the source mutates `wordToIndex` and `vecData` before the check. -/
def ensureSimModel (st : AppState) (vocabOk : Bool) (vocab : List String)
    (bufOk : Bool) (buf : List ℚ) : AppState × Bool × Bool :=
  if st.simLoaded then (st, false, true)
  else
    let st1 := { st with status := statusSimLoading }
    if vocabOk then
      let st2 := { st1 with wordToIndex := buildWordToIndex vocab }
      if bufOk then
        let st3 := { st2 with vecData := buf }
        if buf.length = vocab.length * SIM_D then
          ({ st3 with simLoaded := true, status := statusSimReady }, true, true)
        else (st3, true, false)
      else (st2, true, false)
    else (st1, true, false)

/-- `[...new Set(ws)]` with an explicit seen-set accumulator: a JS `Set`
iterates in insertion order, so the first occurrence of each word is kept. -/
def dedupFirstAux (seen : List String) : List String → List String
  | [] => []
  | w :: ws =>
    if w ∈ seen then dedupFirstAux seen ws
    else w :: dedupFirstAux (w :: seen) ws

/-- `[...new Set(ws)]`: deduplicate keeping first occurrences in order. -/
def dedupFirst (ws : List String) : List String := dedupFirstAux [] ws

/-- `let words = tokenize(text); if (uniqueOnly.checked) words = [...new Set(words)]`. -/
def runWords (uniqueOnly : Bool) (tokens : List String) : List String :=
  if uniqueOnly then dedupFirst tokens else tokens

/-- Variant 1 plot filter (lines 177-186): keep a word only when it has a
coordinate AND a vocabulary index, pushing the word and its coordinate onto
two parallel arrays. -/
def selectPlottable : List String → (String → Option Coord) → (String → Option Nat) →
    List String × List Coord
  | [], _, _ => ([], [])
  | w :: ws, cm, wti =>
    let rest := selectPlottable ws cm wti
    match cm w with
    | none => rest
    | some c => if (wti w).isSome then (w :: rest.1, c :: rest.2) else rest

/-- Lazy-variant plot filter (lines 426-433 / 654-661 / 878-885): keep a word
whenever it has a coordinate; the vocabulary index is not consulted. -/
def selectPlottableLazy : List String → (String → Option Coord) →
    List String × List Coord
  | [], _ => ([], [])
  | w :: ws, cm =>
    let rest := selectPlottableLazy ws cm
    match cm w with
    | none => rest
    | some c => (w :: rest.1, c :: rest.2)

/-- The candidate filter of `showSimilar`:
`currentWords.filter(w => w !== word && wordToIndex.has(w))`. -/
def simEligible (word : String) (pool : List String) (wti : String → Option Nat) :
    List String :=
  pool.filter (fun w => w != word && (wti w).isSome)

/-- The scoring map of `showSimilar`:
`.map(w => ({w, s: cosineSimByIndex(i, wordToIndex.get(w))}))`; the float
cosine value is abstracted as the rational-valued `score` function, and the
lookup (guaranteed to hit by the filter) is read with default 0. -/
def simScored (word : String) (pool : List String) (wti : String → Option Nat)
    (score : Nat → Nat → ℚ) (i : Nat) : List (String × ℚ) :=
  (simEligible word pool wti).map (fun w => (w, score i ((wti w).getD 0)))

/-- The comparator `(a, b) => b.s - a.s` of `Array.prototype.sort`: `a` may
stay before `b` exactly when `b.s ≤ a.s` (descending order). -/
def simDescLe (a b : String × ℚ) : Bool := decide (b.2 ≤ a.2)

/-- `.sort((a, b) => b.s - a.s)`: a stable descending sort by score
(ECMAScript requires `Array.prototype.sort` to be stable). -/
def simSorted (word : String) (pool : List String) (wti : String → Option Nat)
    (score : Nat → Nat → ℚ) (i : Nat) : List (String × ℚ) :=
  (simScored word pool wti score i).mergeSort simDescLe

/-- `.slice(0, 10)`: the ranked similar-word list shown to the user. -/
def simCandidates (word : String) (pool : List String) (wti : String → Option Nat)
    (score : Nat → Nat → ℚ) (i : Nat) : List (String × ℚ) :=
  (simSorted word pool wti score i).take SIM_K

/-- `showSimilar(word)` of the lazy variants (lines 388-408 / 839-863): set
the selected-word label, clear the list, ensure the similarity model (which
may throw), then rank and show candidates unless the word has no vocabulary
index. The returned boolean is false when the ensure step throws. -/
def showSimilar (st : AppState) (word : String) (vocabOk : Bool)
    (vocab : List String) (bufOk : Bool) (buf : List ℚ)
    (score : Nat → Nat → ℚ) : AppState × Bool :=
  let stA := { st with selectedWord := word, simList := [] }
  match ensureSimModel stA vocabOk vocab bufOk buf with
  | (st1, _, false) => (st1, false)
  | (st1, _, true) =>
    match st1.wordToIndex word with
    | none => (st1, true)
    | some i =>
      ({ st1 with simList := simCandidates word st1.currentWords st1.wordToIndex score i }, true)

/-- `run()` of variant 4 (lines 865-900): empty text aborts immediately;
otherwise disable the button, tokenize (`tok` stands for the external
tokenizer pipeline), optionally dedupe, ensure the coordinate table, filter
to plottable words, and either report "too few words" or install the new
plotted set. `text` stands for the already-trimmed input
`(els.text.value || "").trim()`. The returned boolean is false when the
coordinate load throws (variant 4 has no try/catch, so the button then
stays disabled). -/
def run (st : AppState) (tok : String → List String) (uniqueOnly : Bool)
    (text : String) (coordsOk : Bool) (rows : List (String × Coord)) :
    AppState × Bool :=
  if text = "" then (st, true)
  else
    let stA := { st with runDisabled := true, status := statusWakachi }
    let words := runWords uniqueOnly (tok text)
    match ensureCoordsLoaded stA coordsOk rows with
    | (st1, _, false) => (st1, false)
    | (st1, _, true) =>
      let sel := selectPlottableLazy words st1.coordMap
      if sel.1.length < 2 then
        ({ st1 with status := statusTooFew, runDisabled := false }, true)
      else
        ({ st1 with currentWords := sel.1, currentXY := sel.2,
                    status := statusDone sel.1.length, runDisabled := false }, true)

/-- `cosineSimByIndex(i, j)` (lines 39-52): dot product and squared norms of
the two `SIM_D`-wide slices of the flat buffer, returning 0 when either norm
is zero and the normalized dot product otherwise. JS float arithmetic is
modelled by exact real arithmetic; out-of-range reads yield 0 (a JS typed
array read out of range yields `undefined`, which only well-formed indices
avoid — all claims quantify over the buffer, so the default is never the
deciding factor). -/
noncomputable def cosineSimByIndex (vec : List ℝ) (i j : Nat) : ℝ :=
  let offI := i * SIM_D
  let offJ := j * SIM_D
  let dot := ∑ k ∈ Finset.range SIM_D, vec.getD (offI + k) 0 * vec.getD (offJ + k) 0
  let ni := ∑ k ∈ Finset.range SIM_D, vec.getD (offI + k) 0 * vec.getD (offI + k) 0
  let nj := ∑ k ∈ Finset.range SIM_D, vec.getD (offJ + k) 0 * vec.getD (offJ + k) 0
  if ni = 0 ∨ nj = 0 then 0 else dot / (Real.sqrt ni * Real.sqrt nj)

/-- Concrete coordinate rows used by the evaluation examples. -/
def exRows : List (String × Coord) := [("犬", (1, 2)), ("猫", (3, 4))]

/-- A concrete stand-in for the external tokenizer used by the evaluation
examples. -/
def exTok : String → List String := fun _ => ["犬", "猫"]

/-- A concrete successful run from the initial state, used by the
evaluation examples. -/
def runEx : AppState × Bool := run initState exTok false "犬猫" true exRows

/-! ## Loading the similarity model (claims C1, C5) -/

/-- C1: with the two fetches succeeding and the resource not yet loaded, the
similarity-model load completes without throwing exactly when the buffer
element count equals `vocab.length * SIM_D`, and the resource is marked
loaded exactly under the same condition (any other length throws the
size-mismatch error and leaves the resource unloaded). -/
theorem ensureSimModel_success_iff (st : AppState) (vocab : List String)
    (buf : List ℚ) (h : st.simLoaded = false) :
    ((ensureSimModel st true vocab true buf).2.2 = true ↔
      buf.length = vocab.length * SIM_D) ∧
    ((ensureSimModel st true vocab true buf).1.simLoaded = true ↔
      buf.length = vocab.length * SIM_D) := by
  by_cases hl : buf.length = vocab.length * SIM_D <;>
    simp [ensureSimModel, h, hl]

/-- C1 witness: a one-word vocabulary with a 50-element buffer satisfies the
size condition, so this load succeeds. -/
theorem ensureSimModel_success_iff_witness :
    (((ensureSimModel initState true ["猫"] true (List.replicate 50 (0:ℚ))).2.2 = true ↔
       (List.replicate 50 (0:ℚ)).length = ["猫"].length * SIM_D) ∧
     ((ensureSimModel initState true ["猫"] true (List.replicate 50 (0:ℚ))).1.simLoaded = true ↔
       (List.replicate 50 (0:ℚ)).length = ["猫"].length * SIM_D)) :=
  ensureSimModel_success_iff initState ["猫"] (List.replicate 50 (0:ℚ)) rfl

/-- C5 counterexample: loading a one-word vocabulary with a 1-element buffer
(expected 50) fails and leaves the resource unready, but the vocabulary-to-
index map observable after the failed load differs from the one before it:
`"猫"` was unmapped before and maps to index 0 afterwards, because the source
rebuilds `wordToIndex` (and `vecData`) before the length validation. -/
theorem ensureSimModel_partial_state_example :
    (ensureSimModel initState true ["猫"] true [0]).2.2 = false ∧
    (ensureSimModel initState true ["猫"] true [0]).1.simLoaded = false ∧
    initState.wordToIndex "猫" = none ∧
    (ensureSimModel initState true ["猫"] true [0]).1.wordToIndex "猫" = some 0 := by
  refine ⟨rfl, rfl, rfl, ?_⟩
  simp [ensureSimModel, initState, buildWordToIndex, List.enum, SIM_D]

/-- C5 amended: when the load fails the resource stays unready and a
subsequent load retries wholesale (a later call with well-sized data
succeeds and marks the resource loaded); however the failed attempt leaves
`wordToIndex` rebuilt from the newly fetched vocabulary and `vecData`
holding the unvalidated buffer, so those observables are NOT restored to
their pre-load values. -/
theorem ensureSimModel_failure_keeps_unready (st : AppState) (vocab : List String)
    (buf : List ℚ) (h : st.simLoaded = false)
    (hlen : buf.length ≠ vocab.length * SIM_D) :
    (ensureSimModel st true vocab true buf).2.2 = false ∧
    (ensureSimModel st true vocab true buf).1.simLoaded = false ∧
    (ensureSimModel st true vocab true buf).1.wordToIndex = buildWordToIndex vocab ∧
    (ensureSimModel st true vocab true buf).1.vecData = buf ∧
    (∀ vocab2 buf2, buf2.length = vocab2.length * SIM_D →
      (ensureSimModel (ensureSimModel st true vocab true buf).1 true vocab2 true buf2).2.2 = true ∧
      (ensureSimModel (ensureSimModel st true vocab true buf).1 true vocab2 true buf2).1.simLoaded = true) := by
  refine ⟨?_, ?_, ?_, ?_, ?_⟩ <;> simp [ensureSimModel, h, hlen]
  intro vocab2 buf2 hlen2
  simp [hlen2]

/-- C5 witness: the failed one-word load followed by a successful retry with
a well-sized buffer, at concrete inputs. -/
theorem ensureSimModel_failure_keeps_unready_witness :
    (ensureSimModel initState true ["猫"] true [0]).2.2 = false ∧
    (ensureSimModel initState true ["猫"] true [0]).1.simLoaded = false ∧
    (ensureSimModel initState true ["猫"] true [0]).1.wordToIndex = buildWordToIndex ["猫"] ∧
    (ensureSimModel initState true ["猫"] true [0]).1.vecData = [0] ∧
    (∀ vocab2 buf2, buf2.length = vocab2.length * SIM_D →
      (ensureSimModel (ensureSimModel initState true ["猫"] true [0]).1 true vocab2 true buf2).2.2 = true ∧
      (ensureSimModel (ensureSimModel initState true ["猫"] true [0]).1 true vocab2 true buf2).1.simLoaded = true) :=
  ensureSimModel_failure_keeps_unready initState ["猫"] [0] rfl (by decide)

/-! ## Resource readiness flags (claim C6) -/

/-- The tokenizer ensure step never clears any readiness flag and is the
identity when the tokenizer is already present. -/
lemma ensureTokenizer_flags (st : AppState) (ok : Bool) :
    (ensureTokenizer st ok).1.coordsLoaded = st.coordsLoaded ∧
    (ensureTokenizer st ok).1.simLoaded = st.simLoaded ∧
    (st.tokenizerLoaded = true → (ensureTokenizer st ok).1.tokenizerLoaded = true) := by
  cases h : st.tokenizerLoaded <;> cases ok <;> simp [ensureTokenizer, h]

/-- The coordinate ensure step never clears any readiness flag. -/
lemma ensureCoordsLoaded_flags (st : AppState) (ok : Bool) (rows : List (String × Coord)) :
    (ensureCoordsLoaded st ok rows).1.tokenizerLoaded = st.tokenizerLoaded ∧
    (ensureCoordsLoaded st ok rows).1.simLoaded = st.simLoaded ∧
    (st.coordsLoaded = true → (ensureCoordsLoaded st ok rows).1.coordsLoaded = true) := by
  cases h : st.coordsLoaded <;> cases ok <;> simp [ensureCoordsLoaded, h]

/-- The similarity-model ensure step never clears any readiness flag. -/
lemma ensureSimModel_flags (st : AppState) (vOk : Bool) (vocab : List String)
    (bOk : Bool) (buf : List ℚ) :
    (ensureSimModel st vOk vocab bOk buf).1.tokenizerLoaded = st.tokenizerLoaded ∧
    (ensureSimModel st vOk vocab bOk buf).1.coordsLoaded = st.coordsLoaded ∧
    (st.simLoaded = true → (ensureSimModel st vOk vocab bOk buf).1.simLoaded = true) := by
  cases h : st.simLoaded <;> cases vOk <;> cases bOk <;>
    simp [ensureSimModel, h] <;> split <;> simp

/-- `run` never clears any readiness flag. -/
lemma run_flags (st : AppState) (tok : String → List String) (uniq : Bool)
    (text : String) (ok : Bool) (rows : List (String × Coord)) :
    (run st tok uniq text ok rows).1.tokenizerLoaded = st.tokenizerLoaded ∧
    (run st tok uniq text ok rows).1.simLoaded = st.simLoaded ∧
    (st.coordsLoaded = true → (run st tok uniq text ok rows).1.coordsLoaded = true) := by
  by_cases ht : text = "" <;>
    cases h : st.coordsLoaded <;> cases ok <;>
      simp [run, ensureCoordsLoaded, ht, h] <;> split <;> simp

/-- `showSimilar` never clears any readiness flag. -/
lemma showSimilar_flags (st : AppState) (word : String) (vOk : Bool)
    (vocab : List String) (bOk : Bool) (buf : List ℚ) (score : Nat → Nat → ℚ) :
    (showSimilar st word vOk vocab bOk buf score).1.tokenizerLoaded = st.tokenizerLoaded ∧
    (showSimilar st word vOk vocab bOk buf score).1.coordsLoaded = st.coordsLoaded ∧
    (st.simLoaded = true → (showSimilar st word vOk vocab bOk buf score).1.simLoaded = true) := by
  unfold showSimilar
  dsimp only
  have hf := ensureSimModel_flags { st with selectedWord := word, simList := [] }
    vOk vocab bOk buf
  rcases hE : ensureSimModel { st with selectedWord := word, simList := [] }
    vOk vocab bOk buf with ⟨st1, fetched, ok⟩
  rw [hE] at hf
  simp only at hf
  cases ok
  · simpa using hf
  · cases hw : st1.wordToIndex word <;> simpa [hw] using hf

/-- C6: each readiness flag (tokenizer, coordinates, similarity model) is
monotone — once true it stays true across every modelled operation,
including the `run` and `showSimilar` entry points — and each `ensure`
function is an exact no-op (the state is returned unchanged and no fetch is
performed) when its flag is already true. -/
theorem readiness_flags_monotone_and_idempotent (st : AppState) (okT okC vOk bOk : Bool)
    (rows : List (String × Coord)) (vocab : List String) (buf : List ℚ)
    (tok : String → List String) (uniq : Bool) (text : String) (word : String)
    (score : Nat → Nat → ℚ) :
    (st.tokenizerLoaded = true → ensureTokenizer st okT = (st, false, true)) ∧
    (st.coordsLoaded = true → ensureCoordsLoaded st okC rows = (st, false, true)) ∧
    (st.simLoaded = true → ensureSimModel st vOk vocab bOk buf = (st, false, true)) ∧
    (st.tokenizerLoaded = true →
      (ensureTokenizer st okT).1.tokenizerLoaded = true ∧
      (ensureCoordsLoaded st okC rows).1.tokenizerLoaded = true ∧
      (ensureSimModel st vOk vocab bOk buf).1.tokenizerLoaded = true ∧
      (run st tok uniq text okC rows).1.tokenizerLoaded = true ∧
      (showSimilar st word vOk vocab bOk buf score).1.tokenizerLoaded = true) ∧
    (st.coordsLoaded = true →
      (ensureTokenizer st okT).1.coordsLoaded = true ∧
      (ensureCoordsLoaded st okC rows).1.coordsLoaded = true ∧
      (ensureSimModel st vOk vocab bOk buf).1.coordsLoaded = true ∧
      (run st tok uniq text okC rows).1.coordsLoaded = true ∧
      (showSimilar st word vOk vocab bOk buf score).1.coordsLoaded = true) ∧
    (st.simLoaded = true →
      (ensureTokenizer st okT).1.simLoaded = true ∧
      (ensureCoordsLoaded st okC rows).1.simLoaded = true ∧
      (ensureSimModel st vOk vocab bOk buf).1.simLoaded = true ∧
      (run st tok uniq text okC rows).1.simLoaded = true ∧
      (showSimilar st word vOk vocab bOk buf score).1.simLoaded = true) := by
  refine ⟨fun h => by simp [ensureTokenizer, h],
          fun h => by simp [ensureCoordsLoaded, h],
          fun h => by simp [ensureSimModel, h],
          fun h => ?_, fun h => ?_, fun h => ?_⟩
  · exact ⟨(ensureTokenizer_flags st okT).2.2 h,
      by rw [(ensureCoordsLoaded_flags st okC rows).1]; exact h,
      by rw [(ensureSimModel_flags st vOk vocab bOk buf).1]; exact h,
      by rw [(run_flags st tok uniq text okC rows).1]; exact h,
      by rw [(showSimilar_flags st word vOk vocab bOk buf score).1]; exact h⟩
  · exact ⟨by rw [(ensureTokenizer_flags st okT).1]; exact h,
      (ensureCoordsLoaded_flags st okC rows).2.2 h,
      by rw [(ensureSimModel_flags st vOk vocab bOk buf).2.1]; exact h,
      (run_flags st tok uniq text okC rows).2.2 h,
      by rw [(showSimilar_flags st word vOk vocab bOk buf score).2.1]; exact h⟩
  · exact ⟨by rw [(ensureTokenizer_flags st okT).2.1]; exact h,
      by rw [(ensureCoordsLoaded_flags st okC rows).2.1]; exact h,
      (ensureSimModel_flags st vOk vocab bOk buf).2.2 h,
      by rw [(run_flags st tok uniq text okC rows).2.1]; exact h,
      (showSimilar_flags st word vOk vocab bOk buf score).2.2 h⟩

/-- C6 witness: at a state with all three flags set, every ensure call is a
no-op and every operation keeps the flags set. -/
theorem readiness_flags_witness :
    (let stL : AppState :=
      { initState with tokenizerLoaded := true, coordsLoaded := true, simLoaded := true }
     (stL.tokenizerLoaded = true → ensureTokenizer stL true = (stL, false, true)) ∧
     (stL.coordsLoaded = true → ensureCoordsLoaded stL true [] = (stL, false, true)) ∧
     (stL.simLoaded = true → ensureSimModel stL true [] true [] = (stL, false, true)) ∧
     (stL.tokenizerLoaded = true →
       (ensureTokenizer stL true).1.tokenizerLoaded = true ∧
       (ensureCoordsLoaded stL true []).1.tokenizerLoaded = true ∧
       (ensureSimModel stL true [] true []).1.tokenizerLoaded = true ∧
       (run stL (fun _ => []) false "文" true []).1.tokenizerLoaded = true ∧
       (showSimilar stL "猫" true [] true [] (fun _ _ => 0)).1.tokenizerLoaded = true) ∧
     (stL.coordsLoaded = true →
       (ensureTokenizer stL true).1.coordsLoaded = true ∧
       (ensureCoordsLoaded stL true []).1.coordsLoaded = true ∧
       (ensureSimModel stL true [] true []).1.coordsLoaded = true ∧
       (run stL (fun _ => []) false "文" true []).1.coordsLoaded = true ∧
       (showSimilar stL "猫" true [] true [] (fun _ _ => 0)).1.coordsLoaded = true) ∧
     (stL.simLoaded = true →
       (ensureTokenizer stL true).1.simLoaded = true ∧
       (ensureCoordsLoaded stL true []).1.simLoaded = true ∧
       (ensureSimModel stL true [] true []).1.simLoaded = true ∧
       (run stL (fun _ => []) false "文" true []).1.simLoaded = true ∧
       (showSimilar stL "猫" true [] true [] (fun _ _ => 0)).1.simLoaded = true)) :=
  readiness_flags_monotone_and_idempotent
    { initState with tokenizerLoaded := true, coordsLoaded := true, simLoaded := true }
    true true true true [] [] [] (fun _ => []) false "文" "猫" (fun _ _ => 0)

/-! ## Plot-eligibility filters (claims C2, C10) -/

/-- C2 counterexample: in the lazy variants a run may install a plotted word
that has a coordinate but NO vocabulary index. Here the run plots 犬 and 猫
from the coordinate rows while `wordToIndex` is still empty (the similarity
model is only loaded on a later click), so the plotted set contains words
absent from the vocabulary index, contradicting the claim that the filter
keeps only words present in both tables. -/
theorem run_plots_vocab_absent_word :
    (run initState (fun _ => ["犬", "猫"]) false "犬猫" true
        [("犬", ((1:ℚ), (2:ℚ))), ("猫", ((3:ℚ), (4:ℚ)))]).1.currentWords = ["犬", "猫"] ∧
    (run initState (fun _ => ["犬", "猫"]) false "犬猫" true
        [("犬", ((1:ℚ), (2:ℚ))), ("猫", ((3:ℚ), (4:ℚ)))]).1.wordToIndex "犬" = none := by
  constructor <;> rfl

/-- C2 amended: variant 1's filter keeps exactly the words present in BOTH
the coordinate table and the vocabulary index; the lazy variants' filter
keeps exactly the words present in the coordinate table alone (the
vocabulary index is not consulted there, and vocabulary-absent words are
only excluded later, inside `showSimilar`). -/
theorem selectPlottable_kept_characterization (words : List String)
    (cm : String → Option Coord) (wti : String → Option Nat) :
    (selectPlottable words cm wti).1 =
      words.filter (fun w => (cm w).isSome && (wti w).isSome) ∧
    (selectPlottableLazy words cm).1 = words.filter (fun w => (cm w).isSome) := by
  induction words with
  | nil => exact ⟨rfl, rfl⟩
  | cons w ws ih =>
    refine ⟨?_, ?_⟩
    · rw [List.filter_cons]
      cases hc : cm w with
      | none => simpa [selectPlottable, hc] using ih.1
      | some c =>
        cases hw : (wti w).isSome <;>
          simp [selectPlottable, hc, hw, ih.1]
    · rw [List.filter_cons]
      cases hc : cm w with
      | none => simpa [selectPlottableLazy, hc] using ih.2
      | some c => simp [selectPlottableLazy, hc, ih.2]

/-- C2 witness: the two characterizations evaluated on a concrete word list
where 犬 has only a coordinate, 猫 has both, and 魚 has neither. -/
theorem selectPlottable_kept_characterization_witness :
    ((selectPlottable ["犬", "猫", "魚"]
        (fun w => if w = "魚" then none else some ((0:ℚ), (0:ℚ)))
        (fun w => if w = "猫" then some 0 else none)).1 =
      ["犬", "猫", "魚"].filter
        (fun w => ((fun w => if w = "魚" then none else some ((0:ℚ), (0:ℚ))) w).isSome &&
          ((fun w => if w = "猫" then some 0 else none) w).isSome) ∧
     (selectPlottableLazy ["犬", "猫", "魚"]
        (fun w => if w = "魚" then none else some ((0:ℚ), (0:ℚ)))).1 =
      ["犬", "猫", "魚"].filter
        (fun w => ((fun w => if w = "魚" then none else some ((0:ℚ), (0:ℚ))) w).isSome)) :=
  selectPlottable_kept_characterization ["犬", "猫", "魚"]
    (fun w => if w = "魚" then none else some ((0:ℚ), (0:ℚ)))
    (fun w => if w = "猫" then some 0 else none)

/-- The two parallel arrays built by the lazy filter stay index-aligned: they
have the same length and the coordinate at each position is exactly the
coordinate-table entry for the word at that position. -/
lemma selectPlottableLazy_aligned (words : List String) (cm : String → Option Coord) :
    (selectPlottableLazy words cm).1.length = (selectPlottableLazy words cm).2.length ∧
    (∀ p : Nat, (selectPlottableLazy words cm).2[p]? =
      ((selectPlottableLazy words cm).1[p]?).bind cm) := by
  induction words with
  | nil => exact ⟨rfl, fun p => rfl⟩
  | cons w ws ih =>
    cases hc : cm w with
    | none => simpa [selectPlottableLazy, hc] using ih
    | some c =>
      refine ⟨by simp [selectPlottableLazy, hc, ih.1], fun p => ?_⟩
      cases p with
      | zero => simp [selectPlottableLazy, hc]
      | succ q => simpa [selectPlottableLazy, hc] using ih.2 q

/-- Variant 1's filter keeps the same alignment between its two arrays. -/
lemma selectPlottable_aligned (words : List String) (cm : String → Option Coord)
    (wti : String → Option Nat) :
    (selectPlottable words cm wti).1.length = (selectPlottable words cm wti).2.length ∧
    (∀ p : Nat, (selectPlottable words cm wti).2[p]? =
      ((selectPlottable words cm wti).1[p]?).bind cm) := by
  induction words with
  | nil => exact ⟨rfl, fun p => rfl⟩
  | cons w ws ih =>
    cases hc : cm w with
    | none => simpa [selectPlottable, hc] using ih
    | some c =>
      cases hw : (wti w).isSome
      · simpa [selectPlottable, hc, hw] using ih
      · refine ⟨by simp [selectPlottable, hc, hw, ih.1], fun p => ?_⟩
        cases p with
        | zero => simp [selectPlottable, hc, hw]
        | succ q => simpa [selectPlottable, hc, hw] using ih.2 q

/-! ## The run entry point (claims C8, C10) -/

/-- C8: when fewer than 2 words survive the plot filter, `run` completes
normally (no exception), reports the condition through the status line,
re-enables the run button, and leaves the previously plotted word and
coordinate lists untouched. -/
theorem run_insufficient_reports_and_preserves (st : AppState)
    (tok : String → List String) (uniq : Bool) (text : String)
    (rows : List (String × Coord)) (ht : text ≠ "")
    (hk : (selectPlottableLazy (runWords uniq (tok text))
        (ensureCoordsLoaded { st with runDisabled := true, status := statusWakachi }
          true rows).1.coordMap).1.length < 2) :
    (run st tok uniq text true rows).2 = true ∧
    (run st tok uniq text true rows).1.status = statusTooFew ∧
    (run st tok uniq text true rows).1.runDisabled = false ∧
    (run st tok uniq text true rows).1.currentWords = st.currentWords ∧
    (run st tok uniq text true rows).1.currentXY = st.currentXY := by
  cases hcl : st.coordsLoaded <;>
    rw [hcl] at hk <;>
    simp [run, ensureCoordsLoaded, ht, hcl] at hk ⊢ <;>
    simp [hk]

/-- C8 witness: a run whose only token has no coordinate row reports the
too-few condition and keeps the (empty) previous plot. -/
theorem run_insufficient_witness :
    (run initState (fun _ => ["犬"]) false "犬" true []).2 = true ∧
    (run initState (fun _ => ["犬"]) false "犬" true []).1.status = statusTooFew ∧
    (run initState (fun _ => ["犬"]) false "犬" true []).1.runDisabled = false ∧
    (run initState (fun _ => ["犬"]) false "犬" true []).1.currentWords = initState.currentWords ∧
    (run initState (fun _ => ["犬"]) false "犬" true []).1.currentXY = initState.currentXY :=
  run_insufficient_reports_and_preserves initState (fun _ => ["犬"]) false "犬" []
    (by decide) (by decide)

/-- C10: after a successful run the plotted word list and coordinate list
have equal length and, at every position, the coordinate is exactly the
coordinate-table entry of the word at that position (so a plot-click point
index resolves to the correct word); the same alignment holds for variant
1's both-table filter. -/
theorem run_success_parallel_arrays (st : AppState) (tok : String → List String)
    (uniq : Bool) (text : String) (rows : List (String × Coord)) (ht : text ≠ "")
    (hk : ¬ (selectPlottableLazy (runWords uniq (tok text))
        (ensureCoordsLoaded { st with runDisabled := true, status := statusWakachi }
          true rows).1.coordMap).1.length < 2) :
    ((run st tok uniq text true rows).1.currentWords.length =
        (run st tok uniq text true rows).1.currentXY.length ∧
      ∀ p : Nat, (run st tok uniq text true rows).1.currentXY[p]? =
        ((run st tok uniq text true rows).1.currentWords[p]?).bind
          (run st tok uniq text true rows).1.coordMap) ∧
    (∀ (ws : List String) (cm : String → Option Coord) (wti : String → Option Nat),
      (selectPlottable ws cm wti).1.length = (selectPlottable ws cm wti).2.length ∧
      ∀ p : Nat, (selectPlottable ws cm wti).2[p]? =
        ((selectPlottable ws cm wti).1[p]?).bind cm) := by
  refine ⟨?_, fun ws cm wti => selectPlottable_aligned ws cm wti⟩
  simp only [ensureCoordsLoaded] at hk
  cases hcl : st.coordsLoaded <;>
    rw [hcl] at hk <;> simp at hk <;>
    simp [run, ensureCoordsLoaded, ht, hcl] <;>
    split
  · rename_i hlt; exact absurd hlt (by simpa using hk)
  · simpa using selectPlottableLazy_aligned _ _
  · rename_i hlt; exact absurd hlt (by simpa using hk)
  · simpa using selectPlottableLazy_aligned _ _

/-- C10 witness: a successful two-word run, with the alignment evaluated at
the concrete result `runEx`. -/
theorem run_success_parallel_arrays_witness :
    ((runEx.1.currentWords.length = runEx.1.currentXY.length ∧
      ∀ p : Nat, runEx.1.currentXY[p]? = (runEx.1.currentWords[p]?).bind runEx.1.coordMap) ∧
    (∀ (ws : List String) (cm : String → Option Coord) (wti : String → Option Nat),
      (selectPlottable ws cm wti).1.length = (selectPlottable ws cm wti).2.length ∧
      ∀ p : Nat, (selectPlottable ws cm wti).2[p]? =
        ((selectPlottable ws cm wti).1[p]?).bind cm)) :=
  run_success_parallel_arrays initState exTok false "犬猫" exRows
    (by decide) (by decide)

/-! ## Clicking a plotted word (claim C9) -/

/-- C9 counterexample: when the similarity model is not yet loaded and the
fetched buffer is mis-sized, `showSimilar` on a word absent from the
vocabulary index throws (the ensure step raises the size-mismatch error
before the absent-word guard), so the click fails rather than returning
cleanly. -/
theorem showSimilar_throws_example :
    initState.wordToIndex "犬" = none ∧
    (showSimilar initState "犬" true ["猫"] true [0] (fun _ _ => 0)).2 = false :=
  ⟨rfl, rfl⟩

/-- Every branch of the similarity-model ensure step leaves the session
fields (plotted words and coordinates, selected-word label, similarity
list) unchanged. -/
lemma ensureSimModel_session_fields (st : AppState) (vOk : Bool)
    (vocab : List String) (bOk : Bool) (buf : List ℚ) :
    (ensureSimModel st vOk vocab bOk buf).1.currentWords = st.currentWords ∧
    (ensureSimModel st vOk vocab bOk buf).1.currentXY = st.currentXY ∧
    (ensureSimModel st vOk vocab bOk buf).1.selectedWord = st.selectedWord ∧
    (ensureSimModel st vOk vocab bOk buf).1.simList = st.simList := by
  cases h : st.simLoaded <;> cases vOk <;> cases bOk <;>
    simp [ensureSimModel, h] <;> split <;> simp

/-- C9 amended: provided the embedding-model ensure step completes — the
resource was already loaded, or its lazy load succeeds (the very path a
first click takes) — invoking `showSimilar` on a word absent from the
vocabulary index in effect at the guard sets the selected-word label,
clears the similarity list, computes no similarity (the list stays empty),
leaves the plotted word set and coordinates untouched, and completes
without throwing. -/
theorem showSimilar_absent_word_safe (st : AppState) (word : String)
    (vOk bOk : Bool) (vocab : List String) (buf : List ℚ) (score : Nat → Nat → ℚ)
    (hok : (ensureSimModel { st with selectedWord := word, simList := [] }
      vOk vocab bOk buf).2.2 = true)
    (hw : (ensureSimModel { st with selectedWord := word, simList := [] }
      vOk vocab bOk buf).1.wordToIndex word = none) :
    (showSimilar st word vOk vocab bOk buf score).2 = true ∧
    (showSimilar st word vOk vocab bOk buf score).1.selectedWord = word ∧
    (showSimilar st word vOk vocab bOk buf score).1.simList = [] ∧
    (showSimilar st word vOk vocab bOk buf score).1.currentWords = st.currentWords ∧
    (showSimilar st word vOk vocab bOk buf score).1.currentXY = st.currentXY := by
  have hf := ensureSimModel_session_fields { st with selectedWord := word, simList := [] }
    vOk vocab bOk buf
  unfold showSimilar
  dsimp only
  rcases hE : ensureSimModel { st with selectedWord := word, simList := [] }
    vOk vocab bOk buf with ⟨st1, fetched, ok⟩
  rw [hE] at hok hw hf
  simp only at hok hw hf
  subst hok
  simp only [hw]
  exact ⟨by trivial, hf.2.2.1, hf.2.2.2, hf.1, hf.2.1⟩

/-- C9 witness: a first click on 犬 from the unloaded initial state, with a
well-sized one-word model whose vocabulary does not contain 犬 — the lazy
load succeeds, the absent-word guard fires, and the click returns cleanly. -/
theorem showSimilar_absent_word_safe_witness :
    (showSimilar initState "犬" true ["猫"] true (List.replicate 50 0) (fun _ _ => 0)).2 = true ∧
    (showSimilar initState "犬" true ["猫"] true (List.replicate 50 0) (fun _ _ => 0)).1.selectedWord = "犬" ∧
    (showSimilar initState "犬" true ["猫"] true (List.replicate 50 0) (fun _ _ => 0)).1.simList = [] ∧
    (showSimilar initState "犬" true ["猫"] true (List.replicate 50 0) (fun _ _ => 0)).1.currentWords =
      initState.currentWords ∧
    (showSimilar initState "犬" true ["猫"] true (List.replicate 50 0) (fun _ _ => 0)).1.currentXY =
      initState.currentXY :=
  showSimilar_absent_word_safe initState "犬" true true ["猫"] (List.replicate 50 0)
    (fun _ _ => 0) (by decide) (by decide)

/-! ## Deduplication (claim C7) -/

/-- The dedup accumulator output is a sublist of its input. -/
lemma dedupFirstAux_sublist (seen l : List String) : List.Sublist (dedupFirstAux seen l) l := by
  induction l generalizing seen with
  | nil => exact List.Sublist.refl _
  | cons w ws ih =>
    by_cases h : w ∈ seen
    · rw [dedupFirstAux, if_pos h]
      exact (ih seen).cons w
    · rw [dedupFirstAux, if_neg h]
      exact (ih (w :: seen)).cons₂ w

/-- Membership in the dedup accumulator output: present in the input and not
already seen. -/
lemma mem_dedupFirstAux {a : String} (seen l : List String) :
    a ∈ dedupFirstAux seen l ↔ a ∈ l ∧ a ∉ seen := by
  induction l generalizing seen with
  | nil => simp [dedupFirstAux]
  | cons w ws ih =>
    by_cases h : w ∈ seen
    · rw [dedupFirstAux, if_pos h, ih]
      by_cases haw : a = w
      · subst haw; simp [h]
      · simp [haw]
    · rw [dedupFirstAux, if_neg h]
      by_cases haw : a = w
      · subst haw; simp [h]
      · simp only [List.mem_cons, haw, false_or, ih, List.mem_cons]

/-- The dedup accumulator output has no duplicates. -/
lemma dedupFirstAux_nodup (seen l : List String) : (dedupFirstAux seen l).Nodup := by
  induction l generalizing seen with
  | nil => exact List.nodup_nil
  | cons w ws ih =>
    by_cases h : w ∈ seen
    · rw [dedupFirstAux, if_pos h]; exact ih seen
    · rw [dedupFirstAux, if_neg h]
      refine List.nodup_cons.mpr ⟨fun hmem => ?_, ih (w :: seen)⟩
      exact ((mem_dedupFirstAux _ _).mp hmem).2 (List.mem_cons_self w seen)

/-- The dedup accumulator output is ordered by first-occurrence position in
the input list. -/
lemma dedupFirstAux_pairwise (seen l : List String) :
    (dedupFirstAux seen l).Pairwise (fun a b => l.indexOf a < l.indexOf b) := by
  induction l generalizing seen with
  | nil => exact List.Pairwise.nil
  | cons w ws ih =>
    by_cases h : w ∈ seen
    · rw [dedupFirstAux, if_pos h]
      refine (ih seen).imp_of_mem ?_
      intro a b ha hb hab
      have haw : w ≠ a := fun e => ((mem_dedupFirstAux seen ws).mp ha).2 (e ▸ h)
      have hbw : w ≠ b := fun e => ((mem_dedupFirstAux seen ws).mp hb).2 (e ▸ h)
      rw [List.indexOf_cons_ne _ haw, List.indexOf_cons_ne _ hbw]
      exact Nat.succ_lt_succ hab
    · rw [dedupFirstAux, if_neg h]
      refine List.pairwise_cons.mpr ⟨fun b hb => ?_, ?_⟩
      · have hbw : w ≠ b := fun e =>
          ((mem_dedupFirstAux _ _).mp hb).2 (e ▸ List.mem_cons_self w seen)
        rw [List.indexOf_cons_self, List.indexOf_cons_ne _ hbw]
        exact Nat.succ_pos _
      · refine (ih (w :: seen)).imp_of_mem ?_
        intro a b ha hb hab
        have haw : w ≠ a := fun e =>
          ((mem_dedupFirstAux _ _).mp ha).2 (e ▸ List.mem_cons_self w seen)
        have hbw : w ≠ b := fun e =>
          ((mem_dedupFirstAux _ _).mp hb).2 (e ▸ List.mem_cons_self w seen)
        rw [List.indexOf_cons_ne _ haw, List.indexOf_cons_ne _ hbw]
        exact Nat.succ_lt_succ hab

/-- C7: the tokenized word list produced with `uniqueOnly = true` has no
repeated element, is a subsequence-selection of the `uniqueOnly = false`
output on the same tokens, contains exactly the same words, and lists them
in strictly increasing first-occurrence order of the undeduplicated
output. -/
theorem runWords_unique_spec (ts : List String) :
    (runWords true ts).Nodup ∧
    List.Sublist (runWords true ts) (runWords false ts) ∧
    (∀ a : String, a ∈ runWords true ts ↔ a ∈ runWords false ts) ∧
    (runWords true ts).Pairwise
      (fun a b => (runWords false ts).indexOf a < (runWords false ts).indexOf b) := by
  refine ⟨?_, ?_, fun a => ?_, ?_⟩ <;>
    simp only [runWords, if_true, if_false, dedupFirst]
  · exact dedupFirstAux_nodup [] ts
  · exact dedupFirstAux_sublist [] ts
  · rw [mem_dedupFirstAux]
    simp
  · exact dedupFirstAux_pairwise [] ts

/-- C7 witness: the dedup relations evaluated on the concrete token list
[犬, 猫, 犬]. -/
theorem runWords_unique_spec_witness :
    (runWords true ["犬", "猫", "犬"]).Nodup ∧
    List.Sublist (runWords true ["犬", "猫", "犬"]) (runWords false ["犬", "猫", "犬"]) ∧
    (∀ a : String, a ∈ runWords true ["犬", "猫", "犬"] ↔
      a ∈ runWords false ["犬", "猫", "犬"]) ∧
    (runWords true ["犬", "猫", "犬"]).Pairwise
      (fun a b => (runWords false ["犬", "猫", "犬"]).indexOf a <
        (runWords false ["犬", "猫", "犬"]).indexOf b) :=
  runWords_unique_spec ["犬", "猫", "犬"]

/-! ## The similar-word ranking (claim C3) -/

/-- The descending comparator is transitive. -/
lemma simDescLe_trans : ∀ a b c : String × ℚ,
    simDescLe a b → simDescLe b c → simDescLe a c := by
  intro a b c hab hbc
  simp only [simDescLe, decide_eq_true_eq] at *
  exact le_trans hbc hab

/-- The descending comparator is total. -/
lemma simDescLe_total : ∀ a b : String × ℚ, simDescLe a b || simDescLe b a := by
  intro a b
  simp only [simDescLe, Bool.or_eq_true, decide_eq_true_eq]
  exact le_total b.2 a.2

/-- C3: the ranked similar-word list excludes the query word, contains only
candidates with a vocabulary index, has length at most
min(10, eligible candidates), is sorted by descending score, is exactly the
first 10 entries of the stable descending sort, and that sort keeps every
group of equal-score entries in their original pool order (its filter at
each score value equals the filter of the unsorted scored list). -/
theorem simCandidates_spec (word : String) (pool : List String)
    (wti : String → Option Nat) (score : Nat → Nat → ℚ) (i : Nat) :
    (∀ p ∈ simCandidates word pool wti score i, p.1 ≠ word ∧ (wti p.1).isSome = true) ∧
    (simCandidates word pool wti score i).length ≤
      min SIM_K (simEligible word pool wti).length ∧
    (simCandidates word pool wti score i).Pairwise (fun a b => b.2 ≤ a.2) ∧
    simCandidates word pool wti score i = (simSorted word pool wti score i).take SIM_K ∧
    (∀ c : ℚ, (simSorted word pool wti score i).filter (fun p => p.2 == c) =
      (simScored word pool wti score i).filter (fun p => p.2 == c)) := by
  refine ⟨?_, ?_, ?_, rfl, ?_⟩
  · intro p hp
    have hp1 : p ∈ simSorted word pool wti score i := List.mem_of_mem_take hp
    have hp2 : p ∈ simScored word pool wti score i := by
      rw [simSorted, List.mem_mergeSort] at hp1
      exact hp1
    rw [simScored, List.mem_map] at hp2
    obtain ⟨w, hw, hpw⟩ := hp2
    rw [simEligible, List.mem_filter] at hw
    have hcond := hw.2
    rw [Bool.and_eq_true, bne_iff_ne] at hcond
    subst hpw
    exact hcond
  · rw [simCandidates, List.length_take, simSorted, List.length_mergeSort,
      simScored, List.length_map]
  · have hsorted := List.sorted_mergeSort simDescLe_trans simDescLe_total
      (simScored word pool wti score i)
    have htake : (simCandidates word pool wti score i).Pairwise
        (fun a b => simDescLe a b = true) :=
      List.Pairwise.sublist (List.take_sublist SIM_K _) hsorted
    exact htake.imp (fun h => by simpa [simDescLe] using h)
  · intro c
    have hall : ∀ p ∈ (simScored word pool wti score i).filter (fun p => p.2 == c),
        p.2 = c := by
      intro p hp
      have := (List.mem_filter.mp hp).2
      rwa [beq_iff_eq] at this
    have hpw : ((simScored word pool wti score i).filter
        (fun p => p.2 == c)).Pairwise (fun a b => simDescLe a b = true) := by
      refine List.pairwise_of_forall_mem_list ?_
      intro a ha b hb
      rw [simDescLe, hall a ha, hall b hb]
      simp
    have hsub : List.Sublist
        ((simScored word pool wti score i).filter (fun p => p.2 == c))
        (simSorted word pool wti score i) :=
      List.sublist_mergeSort simDescLe_trans simDescLe_total hpw
        (List.filter_sublist _)
    have hsub2 : List.Sublist
        ((simScored word pool wti score i).filter (fun p => p.2 == c))
        ((simSorted word pool wti score i).filter (fun p => p.2 == c)) := by
      have hself : ((simScored word pool wti score i).filter
          (fun p => p.2 == c)).filter (fun p => p.2 == c) =
          (simScored word pool wti score i).filter (fun p => p.2 == c) := by
        refine List.filter_eq_self.mpr ?_
        intro p hp
        rw [beq_iff_eq]
        exact hall p hp
      have := hsub.filter (fun p => p.2 == c)
      rwa [hself] at this
    have hperm : ((simSorted word pool wti score i).filter (fun p => p.2 == c)).Perm
        ((simScored word pool wti score i).filter (fun p => p.2 == c)) :=
      (List.mergeSort_perm (simScored word pool wti score i) simDescLe).filter _
    exact (hsub2.eq_of_length hperm.length_eq.symm).symm

/-- C3 witness: the ranking pipeline evaluated at a concrete query over a
three-word pool with one vocabulary-absent candidate and tied scores. -/
theorem simCandidates_spec_witness :
    (∀ p ∈ simCandidates "犬" ["猫", "魚", "犬"]
        (fun w => if w = "犬" then some 0 else if w = "猫" then some 1 else none)
        (fun _ _ => 0) 0,
      p.1 ≠ "犬" ∧ ((fun w => if w = "犬" then some 0 else
        if w = "猫" then some 1 else none) p.1).isSome = true) ∧
    (simCandidates "犬" ["猫", "魚", "犬"]
        (fun w => if w = "犬" then some 0 else if w = "猫" then some 1 else none)
        (fun _ _ => 0) 0).length ≤
      min SIM_K (simEligible "犬" ["猫", "魚", "犬"]
        (fun w => if w = "犬" then some 0 else if w = "猫" then some 1 else none)).length ∧
    (simCandidates "犬" ["猫", "魚", "犬"]
        (fun w => if w = "犬" then some 0 else if w = "猫" then some 1 else none)
        (fun _ _ => 0) 0).Pairwise (fun a b => b.2 ≤ a.2) ∧
    simCandidates "犬" ["猫", "魚", "犬"]
        (fun w => if w = "犬" then some 0 else if w = "猫" then some 1 else none)
        (fun _ _ => 0) 0 =
      (simSorted "犬" ["猫", "魚", "犬"]
        (fun w => if w = "犬" then some 0 else if w = "猫" then some 1 else none)
        (fun _ _ => 0) 0).take SIM_K ∧
    (∀ c : ℚ, (simSorted "犬" ["猫", "魚", "犬"]
        (fun w => if w = "犬" then some 0 else if w = "猫" then some 1 else none)
        (fun _ _ => 0) 0).filter (fun p => p.2 == c) =
      (simScored "犬" ["猫", "魚", "犬"]
        (fun w => if w = "犬" then some 0 else if w = "猫" then some 1 else none)
        (fun _ _ => 0) 0).filter (fun p => p.2 == c)) :=
  simCandidates_spec "犬" ["猫", "魚", "犬"]
    (fun w => if w = "犬" then some 0 else if w = "猫" then some 1 else none)
    (fun _ _ => 0) 0

/-! ## Cosine similarity (claim C4) -/

/-- Reading any position of an all-zero buffer (with default 0) yields 0. -/
lemma getD_replicate_zero (n m : Nat) : (List.replicate n (0:ℝ)).getD m 0 = 0 := by
  rw [List.getD_eq_getElem?_getD, List.getElem?_replicate]
  split <;> rfl

/-- C4: if either of the two `SIM_D`-wide vectors is all zero the similarity
is exactly 0 (the zero-norm guard fires before any division), and for a
nonzero vector the self-similarity is exactly 1. -/
theorem cosineSimByIndex_spec (vec : List ℝ) (i j : Nat) :
    ((∀ k, k < SIM_D → vec.getD (i * SIM_D + k) 0 = 0) ∨
      (∀ k, k < SIM_D → vec.getD (j * SIM_D + k) 0 = 0) →
      cosineSimByIndex vec i j = 0) ∧
    ((∃ k, k < SIM_D ∧ vec.getD (i * SIM_D + k) 0 ≠ 0) →
      cosineSimByIndex vec i i = 1) := by
  constructor
  · intro h
    simp only [cosineSimByIndex]
    rcases h with h | h
    · have hni : ∑ k ∈ Finset.range SIM_D,
          vec.getD (i * SIM_D + k) 0 * vec.getD (i * SIM_D + k) 0 = 0 := by
        refine Finset.sum_eq_zero ?_
        intro k hk
        rw [h k (Finset.mem_range.mp hk), zero_mul]
      rw [if_pos (Or.inl hni)]
    · have hnj : ∑ k ∈ Finset.range SIM_D,
          vec.getD (j * SIM_D + k) 0 * vec.getD (j * SIM_D + k) 0 = 0 := by
        refine Finset.sum_eq_zero ?_
        intro k hk
        rw [h k (Finset.mem_range.mp hk), zero_mul]
      rw [if_pos (Or.inr hnj)]
  · rintro ⟨k, hk, hne⟩
    simp only [cosineSimByIndex]
    have hpos : 0 < ∑ m ∈ Finset.range SIM_D,
        vec.getD (i * SIM_D + m) 0 * vec.getD (i * SIM_D + m) 0 := by
      refine Finset.sum_pos' (fun m _ => mul_self_nonneg _) ?_
      exact ⟨k, Finset.mem_range.mpr hk, mul_self_pos.mpr hne⟩
    have hne0 : (∑ m ∈ Finset.range SIM_D,
        vec.getD (i * SIM_D + m) 0 * vec.getD (i * SIM_D + m) 0) ≠ 0 :=
      ne_of_gt hpos
    rw [if_neg (by push_neg; exact ⟨hne0, hne0⟩)]
    rw [Real.mul_self_sqrt hpos.le, div_self hne0]

/-- C4 witness: over the two-word buffer `[1, 0, …, 0]` (100 entries, D = 50),
word 1's vector is all zero so `similarity(0, 1) = 0`, and word 0's vector is
nonzero so `similarity(0, 0) = 1`. -/
theorem cosineSimByIndex_spec_witness :
    ((∀ k, k < SIM_D → ((1:ℝ) :: List.replicate 99 0).getD (1 * SIM_D + k) 0 = 0) ∧
      cosineSimByIndex ((1:ℝ) :: List.replicate 99 0) 0 1 = 0) ∧
    ((∃ k, k < SIM_D ∧ ((1:ℝ) :: List.replicate 99 0).getD (0 * SIM_D + k) 0 ≠ 0) ∧
      cosineSimByIndex ((1:ℝ) :: List.replicate 99 0) 0 0 = 1) := by
  have hz : ∀ k, k < SIM_D → ((1:ℝ) :: List.replicate 99 0).getD (1 * SIM_D + k) 0 = 0 := by
    intro k hk
    have h1 : 1 * SIM_D + k = (SIM_D - 1 + k) + 1 := by
      simp only [SIM_D]
      omega
    rw [h1, List.getD_cons_succ, getD_replicate_zero]
  have hnz : ∃ k, k < SIM_D ∧ ((1:ℝ) :: List.replicate 99 0).getD (0 * SIM_D + k) 0 ≠ 0 := by
    refine ⟨0, by norm_num [SIM_D], ?_⟩
    have h0 : 0 * SIM_D + 0 = 0 := by norm_num
    rw [h0, List.getD_cons_zero]
    exact one_ne_zero
  exact ⟨⟨hz, (cosineSimByIndex_spec ((1:ℝ) :: List.replicate 99 0) 0 1).1 (Or.inr hz)⟩,
    ⟨hnz, (cosineSimByIndex_spec ((1:ℝ) :: List.replicate 99 0) 0 1).2 hnz⟩⟩
